import Mathlib

/-!
Shallow embedding of the probing / normalization / chunking / summarization
core of `src/app.py` (an ALIO research-report summarizer), together with
theorems checking the natural-language specification against the code.

Modelling conventions:
* Python JSON values are the inductive `JVal`; Python dicts are ordered
  association lists with unique keys, looked up by `lookupJ` (first match).
* Python truthiness of JSON values is `truthy`.
* Machine strings are Lean `String`; Python `str` slicing in `chunk_text`
  operates on code points, which matches `List Char`.
* Network traffic and the two external PDF text extractors are oracles
  passed in as explicit arguments; every HTTP request performed by the code
  is recorded as an event in a returned trace.
-/

/-- Site origin (`BASE` in `src/app.py`). -/
def BASE : String := "https://www.alio.go.kr"

/-- Decoded JSON value as produced by `resp.json()` in the source. -/
inductive JVal where
  | null : JVal
  | bool : Bool → JVal
  | num : Int → JVal
  | str : String → JVal
  | arr : List JVal → JVal
  | obj : List (String × JVal) → JVal
deriving Repr

/-- Python `dict.get`: first binding of the key, if any. -/
def lookupJ : List (String × JVal) → String → Option JVal
  | [], _ => none
  | (k0, v) :: rest, k => if k0 = k then some v else lookupJ rest k

/-- Python truthiness of a JSON value (`bool(v)`). -/
def truthy : JVal → Bool
  | .null => false
  | .bool b => b
  | .num n => n != 0
  | .str s => !s.isEmpty
  | .arr xs => !xs.isEmpty
  | .obj fs => !fs.isEmpty

/-- The membership test `v in (None, "", 0)` performed by `guess_id_fields`
(line 290).  Python equality makes `False == 0`, so `False` is also in the
tuple. -/
def isEmptyVal : JVal → Bool
  | .null => true
  | .str s => s.isEmpty
  | .num n => n == 0
  | .bool b => !b
  | _ => false

/-- Exactly the three values named by the detail-probe precondition:
`None`, the empty string, and the number `0`. -/
def absentLike : JVal → Bool
  | .null => true
  | .str s => s.isEmpty
  | .num n => n == 0
  | _ => false

mutual
/-- Python `repr` of a JSON value (string quoting simplified to bare
single quotes; the claims only ever apply it to scalars). -/
def pyRepr : JVal → String
  | .null => "None"
  | .bool true => "True"
  | .bool false => "False"
  | .num n => toString n
  | .str s => "\x27" ++ s ++ "\x27"
  | .arr xs => "[" ++ String.intercalate ", " (pyReprList xs) ++ "]"
  | .obj fs => "\x7b" ++ String.intercalate ", " (pyReprFields fs) ++ "\x7d"

def pyReprList : List JVal → List String
  | [] => []
  | x :: xs => pyRepr x :: pyReprList xs

def pyReprFields : List (String × JVal) → List String
  | [] => []
  | (k, v) :: fs => ("\x27" ++ k ++ "\x27: " ++ pyRepr v) :: pyReprFields fs
end

/-- Python `str()` of a JSON value (used by `normalize_candidates` as
`str(title)` etc.). -/
def pyStr : JVal → String
  | .str s => s
  | v => pyRepr v

/-- Does the second character list lead the first one? -/
def leadsWith : List Char → List Char → Bool
  | _, [] => true
  | [], _ :: _ => false
  | c :: cs, p :: ps => c = p && leadsWith cs ps

/-- Does the pattern occur anywhere in the haystack? -/
def occursIn : List Char → List Char → Bool
  | [], pat => pat.isEmpty
  | c :: cs, pat => leadsWith (c :: cs) pat || occursIn cs pat

/-- Python `pat in s` on strings (code-point based, like Python). -/
def containsSub (s pat : String) : Bool :=
  occursIn s.toList pat.toList

/-- Python `s.startswith(p)`. -/
def startsWithL (s p : String) : Bool :=
  leadsWith s.toList p.toList

/-- Python `s.endswith(p)`. -/
def endsWithL (s p : String) : Bool :=
  leadsWith s.toList.reverse p.toList.reverse

/-- ASCII whitespace stripped by Python `str.strip()` (Python additionally
strips some Unicode space code points never produced here). -/
def pyIsSpace (c : Char) : Bool :=
  c.isWhitespace || c = '\x0b' || c = '\x0c'

/-- Python `str.strip()`. -/
def pyStrip (s : String) : String :=
  (((s.toList.dropWhile pyIsSpace).reverse.dropWhile pyIsSpace).reverse).asString

/-- Python `str.lower()` for the ASCII comparisons the source performs. -/
def pyLower (s : String) : String :=
  (s.toList.map Char.toLower).asString

/-- `urllib.parse.urljoin BASE u` for the urls the code feeds it: a path
starting with a single `/` is attached to the site origin, while a
protocol-relative `//host/...` url only inherits the scheme. -/
def urljoinBase (u : String) : String :=
  if startsWithL u "//" then "https:" ++ u else BASE ++ u

-- ======================================================
-- extract_list_from_json / guess_total_key (app.py 140-174)
-- ======================================================

/-- `POSSIBLE_LIST_KEYS` from the source. -/
def POSSIBLE_LIST_KEYS : List String := ["list", "data", "result", "rows", "items"]

/-- `POSSIBLE_TOTAL_KEYS` from the source. -/
def POSSIBLE_TOTAL_KEYS : List String := ["totalCount", "total", "records", "count", "totCnt"]

/-- Top-level key scan of `extract_list_from_json`: first key in `ks` whose
value in `fields` is a JSON list. -/
def findTopList (fields : List (String × JVal)) : List String → Option (List JVal × String)
  | [] => none
  | k :: ks =>
    match lookupJ fields k with
    | some (.arr xs) => some (xs, k)
    | _ => findTopList fields ks

/-- One-level-deep scan of `extract_list_from_json`: first field whose value
is a mapping containing a recognized list key. -/
def findNested : List (String × JVal) → Option (List JVal × String)
  | [] => none
  | (k, v) :: rest =>
    match v with
    | .obj fs =>
      match findTopList fs POSSIBLE_LIST_KEYS with
      | some (xs, kk) => some (xs, k ++ "." ++ kk)
      | none => findNested rest
    | _ => findNested rest

/-- `extract_list_from_json` (app.py 143-161). -/
def extract_list_from_json : JVal → Option (List JVal) × Option String
  | .arr xs => (some xs, some "(root_list)")
  | .obj fs =>
    (match findTopList fs POSSIBLE_LIST_KEYS with
     | some (xs, k) => (some xs, some k)
     | none =>
       match findNested fs with
       | some (xs, kk) => (some xs, some kk)
       | none => (none, none))
  | _ => (none, none)

/-- `tk in data` scan used by `guess_total_key`: key membership only. -/
def findTopKeyMem (fields : List (String × JVal)) : List String → Option String
  | [] => none
  | k :: ks => if (lookupJ fields k).isSome then some k else findTopKeyMem fields ks

/-- Nested part of `guess_total_key`. -/
def findNestedTotal : List (String × JVal) → Option String
  | [] => none
  | (k, v) :: rest =>
    match v with
    | .obj fs =>
      match findTopKeyMem fs POSSIBLE_TOTAL_KEYS with
      | some tk => some (k ++ "." ++ tk)
      | none => findNestedTotal rest
    | _ => findNestedTotal rest

/-- `guess_total_key` (app.py 163-174). -/
def guess_total_key : JVal → Option String
  | .obj fs =>
    (match findTopKeyMem fs POSSIBLE_TOTAL_KEYS with
     | some tk => some tk
     | none => findNestedTotal fs)
  | _ => none

-- ======================================================
-- List API prober (app.py 129-219)
-- ======================================================

/-- A value of a probing payload dict: the source stores strings, numbers
and the `None` placeholders of `PAYLOAD_SETS`. -/
inductive PVal where
  | null : PVal
  | s : String → PVal
  | n : Nat → PVal
deriving DecidableEq, Repr

/-- Python dict assignment `d[k] = v`: replaces the first binding in place,
appends at the end when the key is new. -/
def updA : List (String × PVal) → String → PVal → List (String × PVal)
  | [], k, v => [(k, v)]
  | (k0, v0) :: rest, k, v =>
    if k0 = k then (k, v) :: rest else (k0, v0) :: updA rest k v

/-- `k in d` on a payload dict. -/
def hasKeyP (l : List (String × PVal)) (k : String) : Bool :=
  l.any (fun p => p.1 = k)

/-- `LIST_ENDPOINT_CANDIDATES` from the source. -/
def LIST_ENDPOINT_CANDIDATES : List (String × String) :=
  [(BASE ++ "/item/itemReportListSusi.json", "POST"),
   (BASE ++ "/item/itemReportList.json", "POST")]

/-- `PAYLOAD_SETS` from the source. -/
def PAYLOAD_SETS : List (List (String × PVal)) :=
  [[("apbaId", .null), ("apbaType", .null), ("reportFormRootNo", .null),
    ("pageNo", .n 1), ("pageCnt", .n 30)],
   [("apbaId", .null), ("apbaType", .null), ("reportFormRootNo", .null),
    ("pageIndex", .n 1), ("pageSize", .n 30)],
   [("apbaId", .null), ("apbaType", .null), ("reportFormRootNo", .null),
    ("curPage", .n 1), ("pageSize", .n 30)]]

/-- The `apbaType` candidate list built at app.py 178-179 from the value the
`fetch_apba_type` network scrape returned (`fetched`). -/
def apbaTypeCandidates (fetched : Option String) : List String :=
  (match fetched with
   | some t => if t.isEmpty then [] else [t]
   | none => []) ++ ["1", "2", "A", "B"]

/-- Payload construction for one candidate (app.py 186-194). -/
def buildPayload (base : List (String × PVal)) (apbaId reportRoot apbaType : String)
    (pageSize : Nat) : List (String × PVal) :=
  let p1 := updA base "apbaId" (.s apbaId)
  let p2 := updA p1 "reportFormRootNo" (.s reportRoot)
  let p3 := updA p2 "apbaType" (.s apbaType)
  let p4 := if hasKeyP p3 "pageCnt" then updA p3 "pageCnt" (.n pageSize) else p3
  if hasKeyP p4 "pageSize" then updA p4 "pageSize" (.n pageSize) else p4

/-- One (endpoint, payload-shape, apbaType) combination tried by the prober. -/
structure ListCandidate where
  endpoint : String
  method : String
  payload : List (String × PVal)
  apbaType : String
deriving DecidableEq, Repr

/-- The full candidate sequence of `probe_report_list_api`, in the declared
nesting order: endpoints outermost, then payload shapes, then apbaType
candidates. -/
def listCandidates (apbaId reportRoot : String) (pageSize : Nat)
    (fetched : Option String) : List ListCandidate :=
  LIST_ENDPOINT_CANDIDATES.flatMap fun em =>
    PAYLOAD_SETS.flatMap fun base =>
      (apbaTypeCandidates fetched).map fun t =>
        { endpoint := em.1, method := em.2,
          payload := buildPayload base apbaId reportRoot t pageSize,
          apbaType := t }

/-- Outcome of one HTTP request, as the probing code distinguishes them:
an exception, a 2xx response that is not JSON, or a decoded JSON body. -/
inductive NetOutcome where
  | raise : String → NetOutcome
  | notJson : NetOutcome
  | json : JVal → NetOutcome

/-- `ListProbeResult` dataclass (app.py 48-55). -/
structure ListProbeResult where
  endpoint : String
  method : String
  payload : List (String × PVal)
  list_key : String
  total_key : Option String
  apba_type : Option String
deriving DecidableEq, Repr

/-- The `ListProbeResult` built on a structural match (app.py 207-214). -/
def mkProbeResult (c : ListCandidate) (v : JVal) : ListProbeResult :=
  { endpoint := c.endpoint, method := c.method, payload := c.payload,
    list_key := ((extract_list_from_json v).2).getD "",
    total_key := guess_total_key v,
    apba_type := some c.apbaType }

/-- Result of the probing loop: a first successful combination, or probe
exhaustion carrying the last observed exception (app.py 219). -/
inductive ProbeOutcome where
  | ok : ListProbeResult → ProbeOutcome
  | exhausted : Option String → ProbeOutcome
deriving DecidableEq, Repr

/-- The candidate loop of `probe_report_list_api` (app.py 183-219), also
returning the list of candidates whose request was actually issued, in
order.  `lastErr` threads the `last_err` variable. -/
def probeLoopT (net : ListCandidate → NetOutcome) (lastErr : Option String) :
    List ListCandidate → List ListCandidate × ProbeOutcome
  | [] => ([], .exhausted lastErr)
  | c :: rest =>
    match net c with
    | .raise e =>
      let r := probeLoopT net (some e) rest
      (c :: r.1, r.2)
    | .notJson =>
      let r := probeLoopT net lastErr rest
      (c :: r.1, r.2)
    | .json v =>
      match extract_list_from_json v with
      | (some items, _) =>
        if items.isEmpty then
          let r := probeLoopT net lastErr rest
          (c :: r.1, r.2)
        else ([c], .ok (mkProbeResult c v))
      | (none, _) =>
        let r := probeLoopT net lastErr rest
        (c :: r.1, r.2)

/-- `probe_report_list_api` (app.py 176-219) over a network oracle; the
`fetched` argument is the value the initial `fetch_apba_type` call
returned. -/
def probe_report_list_api (net : ListCandidate → NetOutcome)
    (apbaId reportRoot : String) (pageSize : Nat) (fetched : Option String) :
    List ListCandidate × ProbeOutcome :=
  probeLoopT net none (listCandidates apbaId reportRoot pageSize fetched)

/-- Whether one candidate structurally succeeds under the oracle: JSON
response holding a non-empty list under a recognized key. -/
def candSucceedsB (net : ListCandidate → NetOutcome) (c : ListCandidate) : Bool :=
  match net c with
  | .json v =>
    match extract_list_from_json v with
    | (some items, _) => !items.isEmpty
    | (none, _) => false
  | _ => false

/-- The `last_err` value accumulated over a candidate list: the exception of
the last candidate whose request raised, if any. -/
def lastErrAfter (net : ListCandidate → NetOutcome) (le : Option String) :
    List ListCandidate → Option String
  | [] => le
  | c :: rest =>
    match net c with
    | .raise e => lastErrAfter net (some e) rest
    | _ => lastErrAfter net le rest

/-- The probe outcome references exactly the given candidate combination. -/
def refersTo (o : ProbeOutcome) (c : ListCandidate) : Prop :=
  match o with
  | .ok r => r.endpoint = c.endpoint ∧ r.method = c.method ∧
             r.payload = c.payload ∧ r.apba_type = some c.apbaType
  | .exhausted _ => False

-- ======================================================
-- normalize_candidates (app.py 241-273)
-- ======================================================

/-- `ReportCandidate` dataclass (app.py 57-63).  `detail_url` keeps the raw
JSON value when a url alias held a non-string (the dataclass is not
enforced at runtime). -/
structure ReportCandidate where
  title : String
  org : String
  date : String
  detail_url : Option JVal
  raw : List (String × JVal)

/-- Alias keys for the title field, in source order (app.py 251). -/
def TITLE_KEYS : List String := ["reportTitle", "rtitle", "title", "sj", "reportSj"]

/-- Alias keys for the organization field (app.py 252). -/
def ORG_KEYS : List String := ["apbaNm", "orgNm", "instNm", "org", "apbaName"]

/-- Alias keys for the date field (app.py 253). -/
def DATE_KEYS : List String := ["regDate", "regDt", "pubDate", "publishDate", "ymd", "wrtDt"]

/-- Alias keys for the detail url (app.py 255). -/
def URL_KEYS : List String := ["detailUrl", "detailURL", "linkUrl", "url"]

/-- Alias keys for the synthesized-detail-url identifier (app.py 257). -/
def RID_KEYS : List String := ["reportNo", "reportSn", "rptNo", "id", "seq"]

/-- The Python chain `it.get(k1) or it.get(k2) or ...`: first alias whose
value is present and truthy. -/
def firstTruthy : List String → List (String × JVal) → Option JVal
  | [], _ => none
  | k :: ks, it =>
    match lookupJ it k with
    | some v => if truthy v then some v else firstTruthy ks it
    | none => firstTruthy ks it

/-- Normalization of one mapping entry (app.py 251-272). -/
def normalizeEntry (it : List (String × JVal)) : ReportCandidate :=
  let title := pyStrip (pyStr ((firstTruthy TITLE_KEYS it).getD (.str "(제목없음)")))
  let org := pyStrip (pyStr ((firstTruthy ORG_KEYS it).getD (.str "")))
  let date := pyStrip (pyStr ((firstTruthy DATE_KEYS it).getD (.str "")))
  let du0 :=
    match firstTruthy URL_KEYS it with
    | some v => some v
    | none =>
      match firstTruthy RID_KEYS it with
      | some rid => some (.str (BASE ++ "/item/itemDetail.do?reportNo=" ++ pyStr rid))
      | none => none
  let du1 :=
    match du0 with
    | some (.str u) => if startsWithL u "/" then some (JVal.str (urljoinBase u)) else some (JVal.str u)
    | x => x
  { title := title, org := org, date := date, detail_url := du1, raw := it }

/-- The entry loop of `normalize_candidates`: entries that are not mappings
are silently skipped (app.py 248-249). -/
def normalizeItems (items : List JVal) : List ReportCandidate :=
  items.filterMap fun it =>
    match it with
    | .obj fs => some (normalizeEntry fs)
    | _ => none

/-- `normalize_candidates` (app.py 241-273). -/
def normalize_candidates (listJson : JVal) : List ReportCandidate :=
  match (extract_list_from_json listJson).1 with
  | some items => normalizeItems items
  | none => []

-- ======================================================
-- PDF link resolution (app.py 278-388)
-- ======================================================

/-- `DETAIL_ENDPOINT_CANDIDATES` from the source. -/
def DETAIL_ENDPOINT_CANDIDATES : List String :=
  [BASE ++ "/item/itemReportDetail.json",
   BASE ++ "/item/itemReportView.json",
   BASE ++ "/iris/api/report/detail.json",
   BASE ++ "/iris/api/report/detail"]

/-- `DETAIL_ID_KEYS` from the source. -/
def DETAIL_ID_KEYS : List String :=
  ["reportNo", "reportSn", "rptNo", "id", "seq", "reportId", "reportFormNo", "reportRootNo"]

/-- `guess_id_fields` (app.py 287-292): identifier aliases present in the
entry whose value is not in `(None, "", 0)`, in `DETAIL_ID_KEYS` order. -/
def guess_id_fields (item : List (String × JVal)) : List (String × JVal) :=
  DETAIL_ID_KEYS.filterMap fun k =>
    match lookupJ item k with
    | some v => if isEmptyVal v then none else some (k, v)
    | none => none

/-- The id-key order of the parameter-set construction (app.py 324). -/
def PARAM_ID_ORDER : List String := ["reportNo", "reportSn", "rptNo", "reportId", "id", "seq"]

/-- Singleton parameter sets, one per present identifier (app.py 323-326). -/
def baseParamCandidates (idf : List (String × JVal)) : List (List (String × JVal)) :=
  PARAM_ID_ORDER.filterMap fun k => (lookupJ idf k).map fun v => [(k, v)]

/-- The contextual `extras` dict (app.py 328-334). -/
def detailExtras (apbaId reportRoot : String) (apbaType : Option String) :
    List (String × JVal) :=
  (if apbaId.isEmpty then [] else [("apbaId", JVal.str apbaId)]) ++
  (if reportRoot.isEmpty then [] else [("reportFormRootNo", JVal.str reportRoot)]) ++
  (match apbaType with
   | some t => if t.isEmpty then [] else [("apbaType", JVal.str t)]
   | none => [])

/-- Parameter-set candidates: the singletons, then (when extras exist) each
singleton merged over the extras (app.py 336-340; `merged.update(base)`
puts the extras first, base keys are disjoint from extras keys). -/
def paramCandidates (idf : List (String × JVal)) (extras : List (String × JVal)) :
    List (List (String × JVal)) :=
  let base := baseParamCandidates idf
  if extras.isEmpty then base else base ++ base.map (fun b => extras ++ b)

/-- `urljoin(BASE, url) if url.startswith("/") else url` (app.py 309, 314). -/
def resolveFileUrl (u : String) : String :=
  if startsWithL u "/" then urljoinBase u else u

/-- Attachment-list keys scanned first (app.py 298). -/
def ATTACH_KEYS : List String := ["attachFiles", "files", "fileList", "attachments"]

/-- Direct url keys scanned second (app.py 311). -/
def DETAIL_URL_KEYS : List String := ["pdfUrl", "pdfURL", "downloadUrl", "downUrl", "url"]

/-- Alias keys for a file entry extension (app.py 304). -/
def FILE_EXT_KEYS : List String := ["fileExt", "ext"]

/-- Alias keys for a file entry name (app.py 305). -/
def FILE_NAME_KEYS : List String := ["fileNm", "name", "fileName"]

/-- Alias keys for a file entry url (app.py 306). -/
def FILE_URL_KEYS : List String := ["downloadUrl", "downUrl", "url"]

/-- `(f.get(k1) or f.get(k2) or "").lower()`: the chain defaults to the
empty string, and `.lower()` raises `AttributeError` on a non-string
truthy value. -/
def pyLowerChain (keys : List String) (f : List (String × JVal)) : Except String String :=
  match firstTruthy keys f with
  | none => .ok ""
  | some (.str s) => .ok (pyLower s)
  | some _ => .error "AttributeError: lower"

/-- Inspection of one attachment file entry (app.py 302-309). -/
def fileEntryPdf (f : List (String × JVal)) : Except String (Option String) :=
  match pyLowerChain FILE_EXT_KEYS f with
  | .error e => .error e
  | .ok ext =>
    match pyLowerChain FILE_NAME_KEYS f with
    | .error e => .error e
    | .ok name =>
      match firstTruthy FILE_URL_KEYS f with
      | some (.str u) =>
        if ext == "pdf" || endsWithL name ".pdf" || containsSub (pyLower u) ".pdf"
        then .ok (some (resolveFileUrl u))
        else .ok none
      | _ => .ok none

/-- Loop over the entries of one attachment list (app.py 301-309). -/
def scanFiles : List JVal → Except String (Option String)
  | [] => .ok none
  | f :: rest =>
    match f with
    | .obj ff =>
      match fileEntryPdf ff with
      | .error e => .error e
      | .ok (some u) => .ok (some u)
      | .ok none => scanFiles rest
    | _ => scanFiles rest

/-- Loop over the attachment-list keys (app.py 298-309). -/
def scanAttach (fs : List (String × JVal)) : List String → Except String (Option String)
  | [] => .ok none
  | k :: ks =>
    match lookupJ fs k with
    | some (.arr files) =>
      match scanFiles files with
      | .error e => .error e
      | .ok (some u) => .ok (some u)
      | .ok none => scanAttach fs ks
    | _ => scanAttach fs ks

/-- Second loop over direct url keys (app.py 311-314). -/
def scanUrlKeys (fs : List (String × JVal)) : List String → Option String
  | [] => none
  | k :: ks =>
    match lookupJ fs k with
    | some (.str v) =>
      if !v.isEmpty &&
         (containsSub (pyLower v) ".pdf" || containsSub (pyLower v) "filedown" ||
          containsSub (pyLower v) "download")
      then some (resolveFileUrl v)
      else scanUrlKeys fs ks
    | _ => scanUrlKeys fs ks

/-- `extract_pdf_from_detail_json` (app.py 294-316); an `AttributeError`
raised by the `.lower()` chains is propagated as `.error`. -/
def extract_pdf_from_detail_json (v : JVal) : Except String (Option String) :=
  match v with
  | .obj fs =>
    (match scanAttach fs ATTACH_KEYS with
     | .error e => .error e
     | .ok (some u) => .ok (some u)
     | .ok none => .ok (scanUrlKeys fs DETAIL_URL_KEYS))
  | _ => .ok none

/-- HTTP method of a request. -/
inductive HMethod where
  | get : HMethod
  | post : HMethod
deriving DecidableEq, Repr

/-- An observable effect of the step-2 pipeline: an HTTP request (with its
query/body parameters) or an LLM completion request. -/
inductive Ev where
  | httpGet : String → List (String × JVal) → Ev
  | httpPost : String → List (String × JVal) → Ev
  | llm : String → String → Ev

/-- Is the event an HTTP request? -/
def isHttpEv : Ev → Bool
  | .httpGet _ _ => true
  | .httpPost _ _ => true
  | .llm _ _ => false

/-- Is the event an LLM request? -/
def isLlmEv : Ev → Bool
  | .llm _ _ => true
  | _ => false

/-- The POST half of one detail candidate (app.py 350-354), with the events
already accumulated by the GET half prefixed. -/
def tryDetailPost (net : HMethod → String → List (String × JVal) → NetOutcome)
    (ep : String) (ps : List (String × JVal)) (evs : List Ev) :
    List Ev × Option String :=
  match net .post ep ps with
  | .raise _ => (evs ++ [Ev.httpPost ep ps], none)
  | .notJson => (evs ++ [Ev.httpPost ep ps], none)
  | .json v =>
    match extract_pdf_from_detail_json v with
    | .error _ => (evs ++ [Ev.httpPost ep ps], none)
    | .ok r => (evs ++ [Ev.httpPost ep ps], r)

/-- One (endpoint, params) attempt of the detail probe (app.py 343-356):
GET, then POST, inside one `try` — a GET exception (including an
`AttributeError` from extraction) skips the POST. -/
def tryDetailCandidate (net : HMethod → String → List (String × JVal) → NetOutcome)
    (ep : String) (ps : List (String × JVal)) : List Ev × Option String :=
  match net .get ep ps with
  | .raise _ => ([Ev.httpGet ep ps], none)
  | .notJson => tryDetailPost net ep ps [Ev.httpGet ep ps]
  | .json v =>
    match extract_pdf_from_detail_json v with
    | .error _ => ([Ev.httpGet ep ps], none)
    | .ok (some pdf) => ([Ev.httpGet ep ps], some pdf)
    | .ok none => tryDetailPost net ep ps [Ev.httpGet ep ps]

/-- The endpoint × params loop of the detail probe (app.py 342-356),
short-circuiting on the first PDF url found. -/
def detailLoop (net : HMethod → String → List (String × JVal) → NetOutcome) :
    List (String × List (String × JVal)) → List Ev × Option String
  | [] => ([], none)
  | (ep, ps) :: rest =>
    match (tryDetailCandidate net ep ps).2 with
    | some _ => tryDetailCandidate net ep ps
    | none =>
      ((tryDetailCandidate net ep ps).1 ++ (detailLoop net rest).1,
       (detailLoop net rest).2)

/-- The flattened (endpoint, params) candidate sequence, endpoints
outermost. -/
def detailCandidatePairs (endpoints : List String)
    (pcs : List (List (String × JVal))) : List (String × List (String × JVal)) :=
  endpoints.flatMap fun ep => pcs.map fun ps => (ep, ps)

/-- `probe_detail_api_for_pdf` (app.py 318-358) over a network oracle,
returning the trace of HTTP requests issued and the PDF url found, if
any. -/
def probe_detail_api_for_pdf (net : HMethod → String → List (String × JVal) → NetOutcome)
    (item : List (String × JVal)) (apbaId reportRoot : String)
    (apbaType : Option String) : List Ev × Option String :=
  if (guess_id_fields item).isEmpty then ([], none)
  else
    detailLoop net
      (detailCandidatePairs DETAIL_ENDPOINT_CANDIDATES
        (paramCandidates (guess_id_fields item)
          (detailExtras apbaId reportRoot apbaType)))

/-- `pick_best_pdf_link` (app.py 382-388). -/
def pick_best_pdf_link (links : List String) : Option String :=
  match links with
  | [] => none
  | l0 :: _ =>
    match links.find? (fun l => containsSub (pyLower l) ".pdf") with
    | some l => some l
    | none => some l0

-- ======================================================
-- Text extraction and chunking (app.py 398-420)
-- ======================================================

/-- `extract_text_from_pdf` (app.py 398-410) over the page texts delivered
by the two extraction libraries (pdfplumber first, pypdf second); `.error`
is a raised library exception.  An exception of the secondary extractor
propagates (the source only guards the primary one). -/
def extract_text_from_pdf (primary secondary : Except String (List String)) :
    Except String String :=
  match primary with
  | .ok pages =>
    let text := pyStrip (String.intercalate "\n" pages)
    if text.isEmpty then secondary.map (fun ps => pyStrip (String.intercalate "\n" ps))
    else .ok text
  | .error _ => secondary.map (fun ps => pyStrip (String.intercalate "\n" ps))

/-- The `while start < n` loop of `chunk_text` (app.py 412-420), as a
fueled recursion; every call supplies fuel at least `text.length + 1`,
which suffices whenever `overlap < maxChars`. -/
def chunkLoop (text : List Char) (maxChars overlap : Nat) :
    Nat → Nat → List (List Char)
  | 0, _ => []
  | fuel + 1, start =>
    if start < text.length then
      ((text.drop start).take (min (start + maxChars) text.length - start)) ::
        chunkLoop text maxChars overlap fuel
          (if min (start + maxChars) text.length < text.length
           then min (start + maxChars) text.length - overlap
           else min (start + maxChars) text.length)
    else []

/-- `chunk_text` (app.py 412-420) on the code points of the text. -/
def chunk_text (text : List Char) (maxChars : Nat := 6000) (overlap : Nat := 400) :
    List (List Char) :=
  chunkLoop text maxChars overlap (text.length + 1) 0

/-- `chunk_text` on a `String`, as the summarizer calls it. -/
def chunkTextStr (text : String) : List String :=
  (chunk_text text.toList).map List.asString

/-- Reassembly of a chunk list: the first chunk, then each subsequent
chunk without its first `overlap` characters. -/
def reassemble (overlap : Nat) : List (List Char) → List Char
  | [] => []
  | c :: rest => c ++ (rest.map (List.drop overlap)).flatten

-- ======================================================
-- Summarizer (app.py 30-43, 425-454)
-- ======================================================

/-- `SYSTEM_PROMPT` from the source (app.py 30-43). -/
def SYSTEM_PROMPT : String :=
  "\n당신은 한국수자원공사(K-water) 및 공공기관 연구보고서를 전문적으로 분석하는 정책·기술 전문가입니다.\n\n아래 보고서를 \x27K-water 연구보고서 표준 A 요약 형식\x27에 맞춰 요약하십시오.\n\n[출력 형식 — 반드시 준수]\n\n## 1. 연구 배경 및 필요성\n## 2. 연구 목적\n## 3. 연구 범위 및 방법\n## 4. 주요 연구 결과\n## 5. 정책적·실무적 시사점\n## 6. 결론 및 향후 과제\n"

/-- One `client.responses.create` request (app.py 434-440, 447-453). -/
structure LLMReq where
  model : String
  system : String
  user : String
deriving DecidableEq, Repr

/-- `get_openai_client` (app.py 425-429): fails exactly when no key is
configured in the secret store or environment. -/
def get_openai_client (key : Option String) : Except String Unit :=
  match key with
  | none => .error "OPENAI_API_KEY not found in secrets/env"
  | some _ => .ok ()

/-- `summarize_kwater_standard_a` (app.py 431-454) over an LLM oracle
mapping the user content of a request to the model output; returns the
requests issued, in order, and the returned summary. -/
def summarize_kwater_standard_a (llm : String → String) (model text : String) :
    List LLMReq × String :=
  let chunks := chunkTextStr text
  let parts := chunks.map (fun c => pyStrip (llm c))
  let reqs := chunks.map (fun c => LLMReq.mk model SYSTEM_PROMPT c)
  if parts.length = 1 then (reqs, parts.headD "")
  else
    let combined := String.intercalate "\n\n" parts
    (reqs ++ [LLMReq.mk model SYSTEM_PROMPT combined], pyStrip (llm combined))

-- ======================================================
-- Step 2 button handler (app.py 582-651)
-- ======================================================

/-- Prefix of every flattened failure message (`st.error` at app.py 651). -/
def failPrefix : String := "처리 실패: "

/-- RuntimeError raised when no session probe exists (app.py 586). -/
def needListMsg : String := "먼저 1) 목록 조회를 실행하세요."

/-- RuntimeError raised when no detail url is available (app.py 606). -/
def noDetailUrlMsg : String := "상세 URL이 없어 HTML 파싱도 불가합니다. (detailUrl/reportNo 부재)"

/-- RuntimeError raised when both PDF phases fail (app.py 613). -/
def noPdfMsg : String := "PDF 링크를 찾지 못했습니다. (상세 JSON/HTML 모두 실패)"

/-- RuntimeError raised when no text is extractable (app.py 627). -/
def noTextMsg : String := "PDF에서 텍스트를 추출하지 못했습니다. (스캔본 가능성)"

/-- Missing-credential RuntimeError message (app.py 428). -/
def keyMissingMsg : String := "OPENAI_API_KEY not found in secrets/env"

/-- Library exception message for a detail url that is a truthy non-string
JSON value (the `requests.get` call then raises; the exact message is
opaque to the model). -/
def nonStrUrlMsg : String := "TypeError: url must be a string"

/-- Environment of one step-2 run: the configured key, the LLM oracle, the
network oracle for detail probing, and the outcomes of the out-of-scope
collaborators (HTML scraping of the detail page, the PDF download, the two
PDF text extraction libraries). -/
structure Step2Env where
  key : Option String
  llm : String → String
  net : HMethod → String → List (String × JVal) → NetOutcome
  htmlLinks : Except String (List String)
  download : Except String Unit
  primaryPages : Except String (List String)
  secondaryPages : Except String (List String)

/-- Final user-visible outcome of the handler: a rendered summary, or a
flattened error message shown by `st.error`. -/
inductive UIOutcome where
  | success : String → UIOutcome
  | errorMsg : String → UIOutcome
deriving DecidableEq, Repr

/-- PDF url resolution inside the handler (app.py 591-613): the detail-JSON
probing phase, then the HTML link-scraping fallback. -/
def step2ResolvePdf (env : Step2Env) (cand : ReportCandidate)
    (apbaId reportRoot : String) (apbaType : Option String) :
    List Ev × Except String String :=
  match (probe_detail_api_for_pdf env.net cand.raw apbaId reportRoot apbaType).2 with
  | some u => ((probe_detail_api_for_pdf env.net cand.raw apbaId reportRoot apbaType).1, .ok u)
  | none =>
    match cand.detail_url with
    | none => ((probe_detail_api_for_pdf env.net cand.raw apbaId reportRoot apbaType).1,
               .error noDetailUrlMsg)
    | some v =>
      if truthy v then
        match v with
        | .str u =>
          ((probe_detail_api_for_pdf env.net cand.raw apbaId reportRoot apbaType).1 ++
             [Ev.httpGet u []],
            match env.htmlLinks with
            | .error e => .error e
            | .ok links =>
              match pick_best_pdf_link links with
              | some l => .ok l
              | none => .error noPdfMsg)
        | _ => ((probe_detail_api_for_pdf env.net cand.raw apbaId reportRoot apbaType).1,
                .error nonStrUrlMsg)
      else ((probe_detail_api_for_pdf env.net cand.raw apbaId reportRoot apbaType).1,
            .error noDetailUrlMsg)

/-- The step-2 button handler (app.py 582-651): resolve a PDF url, download
it, extract its text, obtain the OpenAI client, summarize.  Every raised
exception is caught at app.py 648-651 and flattened into a user-visible
message. -/
def handler2 (env : Step2Env) (sessionProbe : Option ListProbeResult)
    (cand : ReportCandidate) (apbaId reportRoot model : String) :
    List Ev × UIOutcome :=
  match sessionProbe with
  | none => ([], .errorMsg (failPrefix ++ needListMsg))
  | some probe =>
    match (step2ResolvePdf env cand apbaId reportRoot probe.apba_type).2 with
    | .error msg => ((step2ResolvePdf env cand apbaId reportRoot probe.apba_type).1,
                     .errorMsg (failPrefix ++ msg))
    | .ok url =>
      match env.download with
      | .error e => ((step2ResolvePdf env cand apbaId reportRoot probe.apba_type).1 ++
                       [Ev.httpGet url []], .errorMsg (failPrefix ++ e))
      | .ok _ =>
        match extract_text_from_pdf env.primaryPages env.secondaryPages with
        | .error e => ((step2ResolvePdf env cand apbaId reportRoot probe.apba_type).1 ++
                         [Ev.httpGet url []], .errorMsg (failPrefix ++ e))
        | .ok t0 =>
          if (pyStrip t0).isEmpty then
            ((step2ResolvePdf env cand apbaId reportRoot probe.apba_type).1 ++
               [Ev.httpGet url []], .errorMsg (failPrefix ++ noTextMsg))
          else
            match get_openai_client env.key with
            | .error e => ((step2ResolvePdf env cand apbaId reportRoot probe.apba_type).1 ++
                             [Ev.httpGet url []], .errorMsg (failPrefix ++ e))
            | .ok _ =>
              ((step2ResolvePdf env cand apbaId reportRoot probe.apba_type).1 ++
                 [Ev.httpGet url []] ++
                 (summarize_kwater_standard_a env.llm model (pyStrip t0)).1.map
                   (fun q => Ev.llm q.system q.user),
               .success (summarize_kwater_standard_a env.llm model (pyStrip t0)).2)

-- ======================================================
-- Helper lemmas
-- ======================================================

/-- A single-field mapping whose value is itself a mapping never matches the
top-level list-key scan. -/
lemma findTopList_singleton_obj (a : String) (gs : List (String × JVal)) :
    ∀ ks, findTopList [(a, .obj gs)] ks = none := by
  intro ks
  induction ks with
  | nil => rfl
  | cons k ks ih =>
    unfold findTopList
    rcases eq_or_ne a k with h | h
    · subst h
      simp only [lookupJ, if_pos rfl]
      exact ih
    · simp only [lookupJ, if_neg h]
      exact ih

/-- `absentLike` values are exactly filtered out by `guess_id_fields`. -/
lemma absentLike_isEmptyVal (v : JVal) (h : absentLike v = true) : isEmptyVal v = true := by
  cases v <;> simp_all [absentLike, isEmptyVal]

-- ======================================================
-- C5
-- ======================================================

/-- C5: a JSON object `{k: [...]}` with a recognized list key yields that
list under key path `k`; `{"result": {"rows": [...]}}` yields the nested
list under `"result.rows"`; a list nested three levels deep is never found
(only one level of mapping-of-mapping is inspected). -/
theorem extract_list_from_json_spec :
    (∀ (k : String) (xs : List JVal), k ∈ POSSIBLE_LIST_KEYS →
       extract_list_from_json (.obj [(k, .arr xs)]) = (some xs, some k)) ∧
    (∀ xs : List JVal,
       extract_list_from_json (.obj [("result", .obj [("rows", .arr xs)])]) =
         (some xs, some "result.rows")) ∧
    (∀ (a b c : String) (xs : List JVal),
       extract_list_from_json (.obj [(a, .obj [(b, .obj [(c, .arr xs)])])]) =
         (none, none)) := by
  refine ⟨?_, ?_, ?_⟩
  · intro k xs hk
    simp only [POSSIBLE_LIST_KEYS, List.mem_cons, List.not_mem_nil, or_false] at hk
    rcases hk with rfl | rfl | rfl | rfl | rfl <;> rfl
  · intro xs
    rfl
  · intro a b c xs
    simp [extract_list_from_json, findNested, findTopList_singleton_obj]

/-- Witness for C5 at concrete inputs. -/
theorem extract_list_from_json_spec_witness :
    extract_list_from_json (.obj [("rows", .arr [])]) = (some [], some "rows") ∧
    extract_list_from_json (.obj [("result", .obj [("rows", .arr [JVal.null])])]) =
      (some [JVal.null], some "result.rows") ∧
    extract_list_from_json (.obj [("a", .obj [("b", .obj [("rows", .arr [JVal.null])])])]) =
      (none, none) :=
  ⟨extract_list_from_json_spec.1 "rows" [] (by decide),
   extract_list_from_json_spec.2.1 [JVal.null],
   extract_list_from_json_spec.2.2 "a" "b" "rows" [JVal.null]⟩

-- ======================================================
-- C8
-- ======================================================

/-- C8: when the primary extractor raises or yields only blank text, the
joined and stripped output of the secondary extractor is returned with no
further fallback; when the secondary also yields blank text the result
is the empty string as an ordinary value, not an error. -/
theorem extract_text_from_pdf_fallback (p s : Except String (List String))
    (hfail : (∃ e, p = .error e) ∨
             (∃ pages, p = .ok pages ∧ pyStrip (String.intercalate "\n" pages) = "")) :
    extract_text_from_pdf p s = s.map (fun ps => pyStrip (String.intercalate "\n" ps)) ∧
    (∀ ps, s = .ok ps → pyStrip (String.intercalate "\n" ps) = "" →
       extract_text_from_pdf p s = .ok "") := by
  have hempty : ("" : String).isEmpty = true := rfl
  have hmain : extract_text_from_pdf p s =
      s.map (fun ps => pyStrip (String.intercalate "\n" ps)) := by
    rcases hfail with ⟨e, rfl⟩ | ⟨pages, rfl, hblank⟩
    · rfl
    · simp [extract_text_from_pdf, hblank, hempty]
  refine ⟨hmain, ?_⟩
  rintro ps rfl hblank2
  rw [hmain]
  simp only [Except.map]
  rw [hblank2]

/-- Witness for C8: primary raises, secondary yields one blank page. -/
theorem extract_text_from_pdf_fallback_witness :
    extract_text_from_pdf (.error "parse failure") (.ok [" "]) = .ok "" :=
  (extract_text_from_pdf_fallback (.error "parse failure") (.ok [" "])
      (Or.inl ⟨"parse failure", rfl⟩)).2 [" "] rfl (by decide)

-- ======================================================
-- C10
-- ======================================================

/-- C10: when every identifier alias of a report entry is absent or bound to
`None`, the empty string, or the number `0` (so in particular the value
`0` counts as absent), the detail-JSON probing phase returns `none`
immediately and issues no HTTP request. -/
theorem probe_detail_no_ids (net : HMethod → String → List (String × JVal) → NetOutcome)
    (item : List (String × JVal)) (apbaId reportRoot : String) (apbaType : Option String)
    (habsent : ∀ k ∈ DETAIL_ID_KEYS, ((lookupJ item k).all absentLike) = true) :
    probe_detail_api_for_pdf net item apbaId reportRoot apbaType = ([], none) := by
  have hguess : guess_id_fields item = [] := by
    unfold guess_id_fields
    rw [List.filterMap_eq_nil_iff]
    intro k hk
    have h := habsent k hk
    cases hl : lookupJ item k with
    | none => simp [hl]
    | some v =>
      rw [hl] at h
      simp only [Option.all_some] at h
      simp [hl, absentLike_isEmptyVal v h]
  simp [probe_detail_api_for_pdf, hguess]

/-- Witness for C10: an entry whose identifier aliases hold `0`, `""` and
`None`. -/
theorem probe_detail_no_ids_witness :
    probe_detail_api_for_pdf (fun _ _ _ => NetOutcome.raise "conn")
      [("reportNo", JVal.num 0), ("id", JVal.str ""), ("seq", JVal.null)]
      "C0221" "B1040" (some "1") = ([], none) :=
  probe_detail_no_ids _ _ _ _ _ (by decide)

-- ======================================================
-- C4 / C6: prober control flow
-- ======================================================

/-- The `last_err` update performed by one candidate attempt. -/
def nextErr (net : ListCandidate → NetOutcome) (c : ListCandidate)
    (le : Option String) : Option String :=
  match net c with
  | .raise e => some e
  | _ => le

/-- Unfolding of the structural-success test on a JSON response. -/
lemma candSucceedsB_of_json (net : ListCandidate → NetOutcome) (c : ListCandidate)
    (v : JVal) (hn : net c = .json v) :
    candSucceedsB net c =
      (match extract_list_from_json v with
       | (some items, _) => !items.isEmpty
       | (none, _) => false) := by
  unfold candSucceedsB
  rw [hn]

/-- A failing candidate is skipped: the loop continues with the remaining
candidates and the updated `last_err`, after recording the attempt. -/
lemma probeLoopT_skip (net : ListCandidate → NetOutcome) (le : Option String)
    (c : ListCandidate) (rest : List ListCandidate)
    (h : candSucceedsB net c = false) :
    probeLoopT net le (c :: rest) =
      ((c :: (probeLoopT net (nextErr net c le) rest).1),
       (probeLoopT net (nextErr net c le) rest).2) := by
  cases hn : net c with
  | raise e => simp [probeLoopT, hn, nextErr]
  | notJson => simp [probeLoopT, hn, nextErr]
  | json v =>
    have hm := (candSucceedsB_of_json net c v hn).symm.trans h
    rcases he : extract_list_from_json v with ⟨o, sk⟩
    rw [he] at hm
    cases o with
    | none => simp [probeLoopT, hn, he, nextErr]
    | some items =>
      have hempty : items.isEmpty = true := by simpa using hm
      simp [probeLoopT, hn, he, hempty, nextErr]

/-- A succeeding candidate returns immediately with a result referencing
exactly that candidate; no later candidate is recorded. -/
lemma probeLoopT_hit (net : ListCandidate → NetOutcome) (le : Option String)
    (c : ListCandidate) (rest : List ListCandidate)
    (h : candSucceedsB net c = true) :
    (probeLoopT net le (c :: rest)).1 = [c] ∧
    refersTo (probeLoopT net le (c :: rest)).2 c := by
  cases hn : net c with
  | raise e => simp [candSucceedsB, hn] at h
  | notJson => simp [candSucceedsB, hn] at h
  | json v =>
    have hm := (candSucceedsB_of_json net c v hn).symm.trans h
    rcases he : extract_list_from_json v with ⟨o, sk⟩
    rw [he] at hm
    cases o with
    | none => simp at hm
    | some items =>
      have hne : items.isEmpty = false := by simpa using hm
      simp [probeLoopT, hn, he, hne, refersTo, mkProbeResult]

/-- First-match behavior of the loop over a decomposed candidate list. -/
lemma probeLoopT_first_match (net : ListCandidate → NetOutcome) :
    ∀ (pre : List ListCandidate) (c : ListCandidate) (post : List ListCandidate)
      (le : Option String),
      (∀ c0 ∈ pre, candSucceedsB net c0 = false) →
      candSucceedsB net c = true →
      (probeLoopT net le (pre ++ c :: post)).1 = pre ++ [c] ∧
      refersTo (probeLoopT net le (pre ++ c :: post)).2 c := by
  intro pre
  induction pre with
  | nil =>
    intro c post le _ hc
    simpa using probeLoopT_hit net le c post hc
  | cons p pre ih =>
    intro c post le hpre hc
    have hp : candSucceedsB net p = false := hpre p (List.mem_cons_self p pre)
    have hrest := ih c post (nextErr net p le)
      (fun c0 hc0 => hpre c0 (List.mem_cons_of_mem p hc0)) hc
    rw [List.cons_append, probeLoopT_skip net le p (pre ++ c :: post) hp]
    simpa using hrest

/-- Exhaustion: when every candidate fails, every candidate is attempted
exactly once, in order, and the loop ends carrying the last observed
exception. -/
lemma probeLoopT_exhaust (net : ListCandidate → NetOutcome) :
    ∀ (cs : List ListCandidate) (le : Option String),
      (∀ c ∈ cs, candSucceedsB net c = false) →
      probeLoopT net le cs = (cs, .exhausted (lastErrAfter net le cs)) := by
  intro cs
  induction cs with
  | nil => intro le _; rfl
  | cons c rest ih =>
    intro le hall
    have hc : candSucceedsB net c = false := hall c (List.mem_cons_self c rest)
    have hlast : lastErrAfter net le (c :: rest) = lastErrAfter net (nextErr net c le) rest := by
      cases hn : net c <;> simp [lastErrAfter, hn, nextErr]
    rw [probeLoopT_skip net le c rest hc,
        ih (nextErr net c le) (fun c0 hc0 => hall c0 (List.mem_cons_of_mem c hc0)), hlast]

/-- C4: the prober tries its (endpoint, payload-shape, apbaType)
combinations in declaration order; every candidate before the first
structural match is attempted and skipped, the first match returns
immediately with a result referencing exactly that candidate, and no
later candidate is ever invoked. -/
theorem probe_report_list_api_first_match (net : ListCandidate → NetOutcome)
    (apbaId reportRoot : String) (pageSize : Nat) (fetched : Option String)
    (pre : List ListCandidate) (c : ListCandidate) (post : List ListCandidate)
    (hsplit : listCandidates apbaId reportRoot pageSize fetched = pre ++ c :: post)
    (hpre : ∀ c0 ∈ pre, candSucceedsB net c0 = false)
    (hc : candSucceedsB net c = true) :
    (probe_report_list_api net apbaId reportRoot pageSize fetched).1 = pre ++ [c] ∧
    refersTo (probe_report_list_api net apbaId reportRoot pageSize fetched).2 c := by
  unfold probe_report_list_api
  rw [hsplit]
  exact probeLoopT_first_match net pre c post none hpre hc

/-- The concrete candidate list probed with the default UI inputs. -/
def c4Cands : List ListCandidate := listCandidates "C0221" "B1040" 30 none

/-- The second candidate of `c4Cands`. -/
def c4Second : ListCandidate := (c4Cands.drop 1).headD ⟨"", "", [], ""⟩

/-- A network oracle under which only the second candidate yields a JSON
body with a non-empty recognized list; every other request raises. -/
def c4Net : ListCandidate → NetOutcome := fun c =>
  if c = c4Second then .json (.obj [("list", .arr [.obj []])]) else .raise "conn"

/-- Witness for C4: with only the second candidate valid, the trace is the
first two candidates and the result references exactly the second. -/
theorem probe_report_list_api_first_match_witness :
    (probe_report_list_api c4Net "C0221" "B1040" 30 none).1 =
      c4Cands.take 1 ++ [c4Second] ∧
    refersTo (probe_report_list_api c4Net "C0221" "B1040" 30 none).2 c4Second :=
  probe_report_list_api_first_match c4Net "C0221" "B1040" 30 none
    (c4Cands.take 1) c4Second (c4Cands.drop 2)
    (by decide) (by decide) (by decide)

/-- C6: when every candidate combination fails, the prober attempts all of
them exactly once, in order, and raises the probe-exhausted error carrying
the last observed exception; during probing a structural mismatch (JSON
without a recognizable non-empty list, or a non-JSON body) makes the loop
continue to the remaining candidates exactly like a transport failure
does, with no retry of the failed candidate. -/
theorem probe_report_list_api_exhaustion :
    (∀ (net : ListCandidate → NetOutcome) (apbaId reportRoot : String)
       (pageSize : Nat) (fetched : Option String),
       (∀ c ∈ listCandidates apbaId reportRoot pageSize fetched,
          candSucceedsB net c = false) →
       probe_report_list_api net apbaId reportRoot pageSize fetched =
         (listCandidates apbaId reportRoot pageSize fetched,
          .exhausted (lastErrAfter net none
            (listCandidates apbaId reportRoot pageSize fetched)))) ∧
    (∀ (net : ListCandidate → NetOutcome) (le : Option String)
       (c : ListCandidate) (rest : List ListCandidate),
       (net c = .notJson ∨ ∃ v, net c = .json v ∧ candSucceedsB net c = false) →
       probeLoopT net le (c :: rest) =
         ((c :: (probeLoopT net le rest).1), (probeLoopT net le rest).2)) ∧
    (∀ (net : ListCandidate → NetOutcome) (le : Option String)
       (c : ListCandidate) (rest : List ListCandidate) (e : String),
       net c = .raise e →
       probeLoopT net le (c :: rest) =
         ((c :: (probeLoopT net (some e) rest).1),
          (probeLoopT net (some e) rest).2)) := by
  refine ⟨?_, ?_, ?_⟩
  · intro net apbaId reportRoot pageSize fetched hall
    exact probeLoopT_exhaust net (listCandidates apbaId reportRoot pageSize fetched) none hall
  · intro net le c rest h
    have hfail : candSucceedsB net c = false := by
      rcases h with hn | ⟨v, _, hf⟩
      · simp [candSucceedsB, hn]
      · exact hf
    have hle : nextErr net c le = le := by
      rcases h with hn | ⟨v, hn, _⟩ <;> simp [nextErr, hn]
    have := probeLoopT_skip net le c rest hfail
    rwa [hle] at this
  · intro net le c rest e hn
    have hfail : candSucceedsB net c = false := by simp [candSucceedsB, hn]
    have hle : nextErr net c le = some e := by simp [nextErr, hn]
    have := probeLoopT_skip net le c rest hfail
    rwa [hle] at this

/-- Witness for C6 at concrete oracles: an all-raising oracle exhausts the
whole candidate list carrying the last exception; a structural mismatch
and a transport failure both step to the remaining candidates. -/
theorem probe_report_list_api_exhaustion_witness :
    (probe_report_list_api (fun _ => NetOutcome.raise "boom") "C0221" "B1040" 30 none =
      (listCandidates "C0221" "B1040" 30 none,
       .exhausted (lastErrAfter (fun _ => NetOutcome.raise "boom") none
         (listCandidates "C0221" "B1040" 30 none)))) ∧
    (probeLoopT (fun _ => NetOutcome.notJson) none [c4Second] =
      ((c4Second :: (probeLoopT (fun _ => NetOutcome.notJson) none []).1),
       (probeLoopT (fun _ => NetOutcome.notJson) none []).2)) ∧
    (probeLoopT (fun _ => NetOutcome.raise "boom") none [c4Second] =
      ((c4Second :: (probeLoopT (fun _ => NetOutcome.raise "boom") (some "boom") []).1),
       (probeLoopT (fun _ => NetOutcome.raise "boom") (some "boom") []).2)) :=
  ⟨probe_report_list_api_exhaustion.1 (fun _ => NetOutcome.raise "boom")
      "C0221" "B1040" 30 none (by decide),
   probe_report_list_api_exhaustion.2.1 (fun _ => NetOutcome.notJson) none
      c4Second [] (Or.inl rfl),
   probe_report_list_api_exhaustion.2.2 (fun _ => NetOutcome.raise "boom") none
      c4Second [] "boom" rfl⟩

-- ======================================================
-- C9: normalizer entry handling
-- ======================================================

/-- When every alias is absent or falsy, the truthy-or chain yields
nothing. -/
lemma firstTruthy_none (fs : List (String × JVal)) :
    ∀ ks : List String,
      (∀ k ∈ ks, ((lookupJ fs k).all (fun v => !truthy v)) = true) →
      firstTruthy ks fs = none := by
  intro ks
  induction ks with
  | nil => intro _; rfl
  | cons k ks ih =>
    intro h
    have hk := h k (List.mem_cons_self k ks)
    have hrest := ih (fun k0 hk0 => h k0 (List.mem_cons_of_mem k hk0))
    unfold firstTruthy
    cases hl : lookupJ fs k with
    | none => exact hrest
    | some v =>
      rw [hl] at hk
      simp only [Option.all_some, Bool.not_eq_true'] at hk
      simp [hk, hrest]

/-- The truthy-or chain takes the first alias with a present truthy value. -/
lemma firstTruthy_first (fs : List (String × JVal)) :
    ∀ (pre : List String) (k : String) (post : List String) (v : JVal),
      (∀ k0 ∈ pre, ((lookupJ fs k0).all (fun w => !truthy w)) = true) →
      lookupJ fs k = some v → truthy v = true →
      firstTruthy (pre ++ k :: post) fs = some v := by
  intro pre
  induction pre with
  | nil =>
    intro k post v _ hl ht
    simp [firstTruthy, hl, ht]
  | cons p pre ih =>
    intro k post v hpre hl ht
    have hp := hpre p (List.mem_cons_self p pre)
    have hrest := ih k post v (fun k0 hk0 => hpre k0 (List.mem_cons_of_mem p hk0)) hl ht
    rw [List.cons_append]
    unfold firstTruthy
    cases hlp : lookupJ fs p with
    | none => exact hrest
    | some w =>
      rw [hlp] at hp
      simp only [Option.all_some, Bool.not_eq_true'] at hp
      simp [hp, hrest]

/-- C9: a list entry that is not a mapping is silently skipped; a field
whose aliases are all absent or empty gets its default (placeholder
title, empty org and date); otherwise each of the title, org and date
fields takes the first of its alias keys holding a present, non-empty
value; a string detail url starting with `/` is resolved against the
site origin, any other string detail url is kept verbatim. -/
theorem normalize_candidates_entry_spec :
    (∀ (pre post : List JVal) (x : JVal), (∀ fs, x ≠ .obj fs) →
       normalizeItems (pre ++ x :: post) = normalizeItems (pre ++ post)) ∧
    (∀ fs : List (String × JVal),
       (∀ k ∈ TITLE_KEYS, ((lookupJ fs k).all (fun v => !truthy v)) = true) →
       (normalizeEntry fs).title = "(제목없음)") ∧
    (∀ fs : List (String × JVal),
       (∀ k ∈ ORG_KEYS, ((lookupJ fs k).all (fun v => !truthy v)) = true) →
       (normalizeEntry fs).org = "") ∧
    (∀ fs : List (String × JVal),
       (∀ k ∈ DATE_KEYS, ((lookupJ fs k).all (fun v => !truthy v)) = true) →
       (normalizeEntry fs).date = "") ∧
    (∀ (fs : List (String × JVal)) (pre : List String) (k : String)
       (post : List String) (v : JVal),
       TITLE_KEYS = pre ++ k :: post →
       (∀ k0 ∈ pre, ((lookupJ fs k0).all (fun w => !truthy w)) = true) →
       lookupJ fs k = some v → truthy v = true →
       (normalizeEntry fs).title = pyStrip (pyStr v)) ∧
    (∀ (fs : List (String × JVal)) (pre : List String) (k : String)
       (post : List String) (v : JVal),
       ORG_KEYS = pre ++ k :: post →
       (∀ k0 ∈ pre, ((lookupJ fs k0).all (fun w => !truthy w)) = true) →
       lookupJ fs k = some v → truthy v = true →
       (normalizeEntry fs).org = pyStrip (pyStr v)) ∧
    (∀ (fs : List (String × JVal)) (pre : List String) (k : String)
       (post : List String) (v : JVal),
       DATE_KEYS = pre ++ k :: post →
       (∀ k0 ∈ pre, ((lookupJ fs k0).all (fun w => !truthy w)) = true) →
       lookupJ fs k = some v → truthy v = true →
       (normalizeEntry fs).date = pyStrip (pyStr v)) ∧
    (∀ (fs : List (String × JVal)) (u : String),
       firstTruthy URL_KEYS fs = some (.str u) →
       (startsWithL u "/" = true →
          (normalizeEntry fs).detail_url = some (.str (urljoinBase u))) ∧
       (startsWithL u "/" = false →
          (normalizeEntry fs).detail_url = some (.str u))) := by
  refine ⟨?_, ?_, ?_, ?_, ?_, ?_, ?_, ?_⟩
  · intro pre post x hx
    have hfx : (fun it => match it with
        | JVal.obj fs => some (normalizeEntry fs)
        | _ => none) x = none := by
      cases x <;> simp_all
    simp [normalizeItems, List.filterMap_append, List.filterMap_cons, hfx]
  · intro fs h
    simp [normalizeEntry, firstTruthy_none fs TITLE_KEYS h, pyStr]
    rfl
  · intro fs h
    simp [normalizeEntry, firstTruthy_none fs ORG_KEYS h, pyStr]
    rfl
  · intro fs h
    simp [normalizeEntry, firstTruthy_none fs DATE_KEYS h, pyStr]
    rfl
  · intro fs pre k post v hsplit hpre hl ht
    have : firstTruthy TITLE_KEYS fs = some v := by
      rw [hsplit]; exact firstTruthy_first fs pre k post v hpre hl ht
    simp [normalizeEntry, this]
  · intro fs pre k post v hsplit hpre hl ht
    have : firstTruthy ORG_KEYS fs = some v := by
      rw [hsplit]; exact firstTruthy_first fs pre k post v hpre hl ht
    simp [normalizeEntry, this]
  · intro fs pre k post v hsplit hpre hl ht
    have : firstTruthy DATE_KEYS fs = some v := by
      rw [hsplit]; exact firstTruthy_first fs pre k post v hpre hl ht
    simp [normalizeEntry, this]
  · intro fs u hu
    constructor
    · intro hs
      simp [normalizeEntry, hu, hs]
    · intro hs
      simp [normalizeEntry, hu, hs]

/-- Witness for C9 at concrete entries. -/
theorem normalize_candidates_entry_spec_witness :
    (normalizeItems ([] ++ JVal.null :: [JVal.obj []]) = normalizeItems ([] ++ [JVal.obj []])) ∧
    ((normalizeEntry [("reportTitle", JVal.str "")]).title = "(제목없음)") ∧
    ((normalizeEntry [("reportTitle", JVal.str "")]).org = "") ∧
    ((normalizeEntry [("reportTitle", JVal.str "")]).date = "") ∧
    ((normalizeEntry [("rtitle", JVal.str " T1 ")]).title = pyStrip (pyStr (.str " T1 "))) ∧
    ((normalizeEntry [("orgNm", JVal.str " Org ")]).org = pyStrip (pyStr (.str " Org "))) ∧
    ((normalizeEntry [("regDt", JVal.str "2024-01-01")]).date =
       pyStrip (pyStr (.str "2024-01-01"))) ∧
    ((normalizeEntry [("url", JVal.str "/files/a.pdf")]).detail_url =
       some (.str (urljoinBase "/files/a.pdf"))) :=
  ⟨normalize_candidates_entry_spec.1 [] [JVal.obj []] JVal.null (fun _ h => JVal.noConfusion h),
   normalize_candidates_entry_spec.2.1 [("reportTitle", JVal.str "")] (by decide),
   normalize_candidates_entry_spec.2.2.1 [("reportTitle", JVal.str "")] (by decide),
   normalize_candidates_entry_spec.2.2.2.1 [("reportTitle", JVal.str "")] (by decide),
   normalize_candidates_entry_spec.2.2.2.2.1 [("rtitle", JVal.str " T1 ")]
     ["reportTitle"] "rtitle" ["title", "sj", "reportSj"] (.str " T1 ")
     (by decide) (by decide) rfl (by decide),
   normalize_candidates_entry_spec.2.2.2.2.2.1 [("orgNm", JVal.str " Org ")]
     ["apbaNm"] "orgNm" ["instNm", "org", "apbaName"] (.str " Org ")
     (by decide) (by decide) rfl (by decide),
   normalize_candidates_entry_spec.2.2.2.2.2.2.1 [("regDt", JVal.str "2024-01-01")]
     ["regDate"] "regDt" ["pubDate", "publishDate", "ymd", "wrtDt"] (.str "2024-01-01")
     (by decide) (by decide) rfl (by decide),
   (normalize_candidates_entry_spec.2.2.2.2.2.2.2 [("url", JVal.str "/files/a.pdf")]
     "/files/a.pdf" rfl).1 (by decide)⟩

-- ======================================================
-- C3: summarizer request accounting
-- ======================================================

/-- Characterization of the summarizer with the branch condition expressed
on the chunk count. -/
lemma summarize_eq (llm : String → String) (model text : String) :
    summarize_kwater_standard_a llm model text =
      (if (chunkTextStr text).length = 1 then
         ((chunkTextStr text).map (fun c => LLMReq.mk model SYSTEM_PROMPT c),
          ((chunkTextStr text).map (fun c => pyStrip (llm c))).headD "")
       else
         ((chunkTextStr text).map (fun c => LLMReq.mk model SYSTEM_PROMPT c) ++
            [LLMReq.mk model SYSTEM_PROMPT (String.intercalate "\n\n"
              ((chunkTextStr text).map (fun c => pyStrip (llm c))))],
          pyStrip (llm (String.intercalate "\n\n"
            ((chunkTextStr text).map (fun c => pyStrip (llm c))))))) := by
  unfold summarize_kwater_standard_a
  simp only [List.length_map]

/-- Helper: projecting the user field back out of the built requests. -/
lemma map_user_mk (model : String) (l : List String) :
    l.map (LLMReq.user ∘ fun c => LLMReq.mk model SYSTEM_PROMPT c) = l := by
  induction l with
  | nil => rfl
  | cons a l ih => simp only [List.map_cons, ih]; rfl

/-- C3 (amended): for a non-empty text, the summarizer issues exactly one
request per chunk, in chunk order, each carrying the fixed system prompt;
when there are at least two chunks one further aggregation request over
the joined per-chunk outputs is issued and its stripped output returned,
but when the text fits in a single chunk the stripped output of that one
chunk is returned directly and no aggregation request is issued. -/
theorem summarize_request_count (llm : String → String) (model text : String)
    (hne : text ≠ "") :
    (∀ q ∈ (summarize_kwater_standard_a llm model text).1,
       q.model = model ∧ q.system = SYSTEM_PROMPT) ∧
    (((summarize_kwater_standard_a llm model text).1.map LLMReq.user).take
        (chunkTextStr text).length = chunkTextStr text) ∧
    ((chunkTextStr text).length = 1 →
       (summarize_kwater_standard_a llm model text).1.length = 1 ∧
       (summarize_kwater_standard_a llm model text).2 =
         pyStrip (llm ((chunkTextStr text).headD ""))) ∧
    ((chunkTextStr text).length ≠ 1 →
       (summarize_kwater_standard_a llm model text).1.length =
         (chunkTextStr text).length + 1 ∧
       (summarize_kwater_standard_a llm model text).2 =
         pyStrip (llm (String.intercalate "\n\n"
           ((chunkTextStr text).map (fun c => pyStrip (llm c)))))) := by
  have heq := summarize_eq llm model text
  by_cases hk : (chunkTextStr text).length = 1
  · rw [heq, if_pos hk]
    refine ⟨?_, ?_, ?_, fun h => absurd hk h⟩
    · intro q hq
      simp only [List.mem_map] at hq
      rcases hq with ⟨c, _, rfl⟩
      exact ⟨rfl, rfl⟩
    · rw [List.map_map, map_user_mk model, List.take_length]
    · intro _
      refine ⟨by simp [hk], ?_⟩
      cases hc : chunkTextStr text with
      | nil => rw [hc] at hk; simp at hk
      | cons c cs =>
        cases cs with
        | nil => simp
        | cons c2 cs2 => rw [hc] at hk; simp at hk
  · rw [heq, if_neg hk]
    refine ⟨?_, ?_, fun h => absurd h hk, ?_⟩
    · intro q hq
      simp only [List.mem_append, List.mem_map, List.mem_singleton] at hq
      rcases hq with ⟨c, _, rfl⟩ | rfl
      · exact ⟨rfl, rfl⟩
      · exact ⟨rfl, rfl⟩
    · rw [List.map_append, List.map_map, map_user_mk model,
          List.take_append_of_le_length (le_refl _), List.take_length]
    · intro _
      exact ⟨by simp, rfl⟩

/-- Counterexample for C3 as stated: a text that fits in one chunk issues a
single request, not one per chunk plus an aggregation request. -/
theorem summarize_request_count_counterexample :
    ¬ ((summarize_kwater_standard_a (fun s => s) "gpt-4o-mini" "abc").1.length =
       (chunkTextStr "abc").length + 1) := by
  decide

/-- Witness for the amended C3 at a concrete one-chunk text. -/
theorem summarize_request_count_witness :
    (summarize_kwater_standard_a (fun s => s) "gpt-4o-mini" "hello").1.length = 1 ∧
    (summarize_kwater_standard_a (fun s => s) "gpt-4o-mini" "hello").2 =
      pyStrip ((fun s => s) ((chunkTextStr "hello").headD "")) :=
  (summarize_request_count (fun s => s) "gpt-4o-mini" "hello"
    (by decide)).2.2.1 (by decide)

-- ======================================================
-- C1 / C7: step-2 handler
-- ======================================================


/-- The POST half always records exactly one more HTTP event. -/
lemma tryDetailPost_events_eq (net : HMethod → String → List (String × JVal) → NetOutcome)
    (ep : String) (ps : List (String × JVal)) (evs : List Ev) :
    (tryDetailPost net ep ps evs).1 = evs ++ [Ev.httpPost ep ps] := by
  unfold tryDetailPost
  split
  · rfl
  · rfl
  · split <;> rfl

/-- One detail candidate records its GET, possibly followed by its POST. -/
lemma tryDetailCandidate_events_eq (net : HMethod → String → List (String × JVal) → NetOutcome)
    (ep : String) (ps : List (String × JVal)) :
    (tryDetailCandidate net ep ps).1 = [Ev.httpGet ep ps] ∨
    (tryDetailCandidate net ep ps).1 = [Ev.httpGet ep ps, Ev.httpPost ep ps] := by
  unfold tryDetailCandidate
  split
  · exact Or.inl rfl
  · exact Or.inr (tryDetailPost_events_eq net ep ps [Ev.httpGet ep ps])
  · split
    · exact Or.inl rfl
    · exact Or.inl rfl
    · exact Or.inr (tryDetailPost_events_eq net ep ps [Ev.httpGet ep ps])

/-- Every event of one detail candidate is an HTTP request. -/
lemma tryDetailCandidate_http (net : HMethod → String → List (String × JVal) → NetOutcome)
    (ep : String) (ps : List (String × JVal)) :
    ∀ e ∈ (tryDetailCandidate net ep ps).1, isHttpEv e = true := by
  intro e he
  rcases tryDetailCandidate_events_eq net ep ps with h | h <;> rw [h] at he <;>
    simp only [List.mem_cons, List.not_mem_nil, or_false] at he
  · rw [he]; rfl
  · rcases he with rfl | rfl <;> rfl

/-- Every event of the detail-probe loop is an HTTP request. -/
lemma detailLoop_http (net : HMethod → String → List (String × JVal) → NetOutcome) :
    ∀ pairs, ∀ e ∈ (detailLoop net pairs).1, isHttpEv e = true := by
  intro pairs
  induction pairs with
  | nil => intro e he; simp [detailLoop] at he
  | cons p rest ih =>
    intro e he
    rcases p with ⟨ep, ps⟩
    unfold detailLoop at he
    split at he
    · exact tryDetailCandidate_http net ep ps e he
    · have he2 : e ∈ (tryDetailCandidate net ep ps).1 ++ (detailLoop net rest).1 := he
      rcases List.mem_append.mp he2 with h1 | h2
      · exact tryDetailCandidate_http net ep ps e h1
      · exact ih e h2

/-- Every event of the detail-JSON probing phase is an HTTP request. -/
lemma probe_detail_http (net : HMethod → String → List (String × JVal) → NetOutcome)
    (item : List (String × JVal)) (apbaId reportRoot : String) (apbaType : Option String) :
    ∀ e ∈ (probe_detail_api_for_pdf net item apbaId reportRoot apbaType).1,
      isHttpEv e = true := by
  intro e he
  unfold probe_detail_api_for_pdf at he
  split at he
  · have he2 : e ∈ ([] : List Ev) := he
    simp at he2
  · exact detailLoop_http net _ e he

/-- Every event recorded by PDF url resolution is an HTTP request. -/
lemma step2ResolvePdf_http (env : Step2Env) (cand : ReportCandidate)
    (apbaId reportRoot : String) (apbaType : Option String) :
    ∀ e ∈ (step2ResolvePdf env cand apbaId reportRoot apbaType).1, isHttpEv e = true := by
  intro e he
  unfold step2ResolvePdf at he
  split at he
  · exact probe_detail_http env.net cand.raw apbaId reportRoot apbaType e he
  · split at he
    · exact probe_detail_http env.net cand.raw apbaId reportRoot apbaType e he
    · split at he
      · split at he
        · have he2 : e ∈ (probe_detail_api_for_pdf env.net cand.raw apbaId reportRoot
              apbaType).1 ++ [Ev.httpGet _ []] := he
          rcases List.mem_append.mp he2 with h1 | h2
          · exact probe_detail_http env.net cand.raw apbaId reportRoot apbaType e h1
          · simp only [List.mem_singleton] at h2; rw [h2]; rfl
        · exact probe_detail_http env.net cand.raw apbaId reportRoot apbaType e he
      · exact probe_detail_http env.net cand.raw apbaId reportRoot apbaType e he

/-- A trace of HTTP requests contains no LLM request. -/
lemma all_http_no_llm (l : List Ev) (h : ∀ e ∈ l, isHttpEv e = true) :
    l.all (fun e => !isLlmEv e) = true := by
  rw [List.all_eq_true]
  intro e he
  have hh := h e he
  cases e <;> simp_all [isHttpEv, isLlmEv]

/-- C1 (amended): when no OpenAI key is configured, the run never issues an
LLM request and never produces a summary — the missing-credential error is
raised before any LLM call; the HTTP requests of detail probing, HTML
scraping and the PDF download, however, may already have been issued when
the failure is surfaced. -/
theorem handler2_missing_key (env : Step2Env) (sessionProbe : Option ListProbeResult)
    (cand : ReportCandidate) (apbaId reportRoot model : String)
    (hkey : env.key = none) :
    (handler2 env sessionProbe cand apbaId reportRoot model).1.all
        (fun e => !isLlmEv e) = true ∧
    ∀ s, (handler2 env sessionProbe cand apbaId reportRoot model).2 ≠ .success s := by
  cases sessionProbe with
  | none => exact ⟨rfl, fun s h => UIOutcome.noConfusion h⟩
  | some probe =>
    simp only [handler2]
    have hhttp1 := step2ResolvePdf_http env cand apbaId reportRoot probe.apba_type
    split
    · exact ⟨all_http_no_llm _ hhttp1, fun s h => UIOutcome.noConfusion h⟩
    · rename_i url heq
      have hhttp2 : ∀ e ∈ (step2ResolvePdf env cand apbaId reportRoot probe.apba_type).1 ++
          [Ev.httpGet url []], isHttpEv e = true := by
        intro e he
        rcases List.mem_append.mp he with h1 | h2
        · exact hhttp1 e h1
        · simp only [List.mem_singleton] at h2; rw [h2]; rfl
      split
      · exact ⟨all_http_no_llm _ hhttp2, fun s h => UIOutcome.noConfusion h⟩
      · split
        · exact ⟨all_http_no_llm _ hhttp2, fun s h => UIOutcome.noConfusion h⟩
        · split
          · exact ⟨all_http_no_llm _ hhttp2, fun s h => UIOutcome.noConfusion h⟩
          · split
            · exact ⟨all_http_no_llm _ hhttp2, fun s h => UIOutcome.noConfusion h⟩
            · rename_i a heq2
              rw [hkey] at heq2
              simp [get_openai_client] at heq2

/-- The raw entry of the C1 counterexample run. -/
def c1Item : List (String × JVal) := [("reportNo", JVal.num 123)]

/-- A network oracle whose every response is a JSON detail body holding a
PDF link. -/
def c1Net : HMethod → String → List (String × JVal) → NetOutcome :=
  fun _ _ _ => .json (.obj [("pdfUrl", JVal.str "/files/report.pdf")])

/-- A run environment with no key configured but a fully working network. -/
def c1Env : Step2Env :=
  { key := none, llm := fun _ => "요약", net := c1Net,
    htmlLinks := .ok [], download := .ok (),
    primaryPages := .ok ["본문"], secondaryPages := .ok [] }

/-- The selected candidate of the C1 counterexample run. -/
def c1Cand : ReportCandidate :=
  { title := "t", org := "o", date := "d",
    detail_url := some (.str "https://www.alio.go.kr/item/itemDetail.do?reportNo=123"),
    raw := c1Item }

/-- The session probe of the C1 counterexample run. -/
def c1Probe : ListProbeResult :=
  { endpoint := "https://www.alio.go.kr/item/itemReportListSusi.json", method := "POST",
    payload := [], list_key := "list", total_key := none, apba_type := some "1" }

/-- Counterexample for C1 as stated: with no key configured, the run ends in
the missing-credential failure, but HTTP requests (detail probe and PDF
download) have already been issued before that failure is raised. -/
theorem handler2_missing_key_counterexample :
    (handler2 c1Env (some c1Probe) c1Cand "C0221" "B1040" "gpt-4o-mini").2 =
      .errorMsg (failPrefix ++ keyMissingMsg) ∧
    (handler2 c1Env (some c1Probe) c1Cand "C0221" "B1040" "gpt-4o-mini").1.any
      isHttpEv = true := by
  decide

/-- Witness for the amended C1 at the concrete no-key run. -/
theorem handler2_missing_key_witness :
    (handler2 c1Env (some c1Probe) c1Cand "C0221" "B1040" "gpt-4o-mini").1.all
        (fun e => !isLlmEv e) = true ∧
    ∀ s, (handler2 c1Env (some c1Probe) c1Cand "C0221" "B1040" "gpt-4o-mini").2 ≠
      .success s :=
  handler2_missing_key c1Env (some c1Probe) c1Cand "C0221" "B1040" "gpt-4o-mini" rfl

/-- C7: when the detail-JSON probing phase yields no PDF url and the HTML
link-scraping phase yields no links either, the handler surfaces the
user-visible no-PDF-found message — resolution returns none instead of
raising, and the pipeline ends in a caught, flattened error message, not
an unhandled fault. -/
theorem handler2_no_pdf_found (env : Step2Env) (probe : ListProbeResult)
    (cand : ReportCandidate) (apbaId reportRoot model : String) (u : String)
    (hdu : cand.detail_url = some (.str u)) (hne : u.isEmpty = false)
    (hjson : (probe_detail_api_for_pdf env.net cand.raw apbaId reportRoot
       probe.apba_type).2 = none)
    (hhtml : env.htmlLinks = .ok []) :
    (handler2 env (some probe) cand apbaId reportRoot model).2 =
      .errorMsg (failPrefix ++ noPdfMsg) := by
  have ht : truthy (.str u) = true := by simp [truthy, hne]
  have hres : (step2ResolvePdf env cand apbaId reportRoot probe.apba_type).2 =
      .error noPdfMsg := by
    simp [step2ResolvePdf, hjson, hdu, ht, hhtml, pick_best_pdf_link]
  simp only [handler2]
  rw [hres]

/-- The session probe of the C7 witness run. -/
def c7Probe : ListProbeResult :=
  { endpoint := "https://www.alio.go.kr/item/itemReportListSusi.json", method := "POST",
    payload := [], list_key := "list", total_key := none, apba_type := some "1" }

/-- A run environment whose detail requests all raise and whose HTML
scraping finds no links. -/
def c7Env : Step2Env :=
  { key := some "sk", llm := fun _ => "", net := fun _ _ _ => .raise "conn",
    htmlLinks := .ok [], download := .ok (),
    primaryPages := .ok [], secondaryPages := .ok [] }

/-- The selected candidate of the C7 witness run. -/
def c7Cand : ReportCandidate :=
  { title := "t", org := "o", date := "d",
    detail_url := some (.str "https://www.alio.go.kr/item/itemDetail.do?reportNo=7"),
    raw := [("reportNo", JVal.num 7)] }

/-- Witness for C7 at the concrete no-PDF run. -/
theorem handler2_no_pdf_found_witness :
    (handler2 c7Env (some c7Probe) c7Cand "C0221" "B1040" "gpt-4o-mini").2 =
      .errorMsg (failPrefix ++ noPdfMsg) :=
  handler2_no_pdf_found c7Env c7Probe c7Cand "C0221" "B1040" "gpt-4o-mini"
    "https://www.alio.go.kr/item/itemDetail.do?reportNo=7" rfl rfl (by decide) rfl

-- ======================================================
-- C2: chunking
-- ======================================================

/-- Past the end of the text the loop produces nothing, whatever the fuel. -/
lemma chunkLoop_of_le (text : List Char) (maxc ov fuel start : Nat)
    (h : text.length ≤ start) :
    chunkLoop text maxc ov fuel start = [] := by
  cases fuel with
  | zero => rfl
  | succ f => simp [chunkLoop, show ¬(start < text.length) by omega]

/-- Before the end of the text the loop produces at least one chunk. -/
lemma chunkLoop_ne_nil (text : List Char) (maxc ov fuel start : Nat)
    (h : start < text.length) (hf : 1 ≤ fuel) :
    chunkLoop text maxc ov fuel start ≠ [] := by
  cases fuel with
  | zero => omega
  | succ f => simp [chunkLoop, h]

/-- Dropping the overlap from every chunk and flattening yields the text
from position `start + overlap` on, for sufficient fuel. -/
lemma chunkLoop_flatten_drop (text : List Char) (maxc ov : Nat) (hov : ov < maxc) :
    ∀ fuel start, text.length ≤ start + fuel →
      ((chunkLoop text maxc ov fuel start).map (List.drop ov)).flatten =
        text.drop (start + ov) := by
  intro fuel
  induction fuel with
  | zero =>
    intro start h
    rw [chunkLoop_of_le text maxc ov 0 start (by omega)]
    simp [List.drop_eq_nil_of_le (show text.length ≤ start + ov by omega)]
  | succ f ih =>
    intro start h
    by_cases hs : start < text.length
    case neg =>
      rw [chunkLoop_of_le text maxc ov (f + 1) start (by omega)]
      simp [List.drop_eq_nil_of_le (show text.length ≤ start + ov by omega)]
    case pos =>
      simp only [chunkLoop]
      rw [if_pos hs]
      by_cases he : min (start + maxc) text.length < text.length
      case pos =>
        have hemin : min (start + maxc) text.length = start + maxc := by omega
        rw [if_pos he, hemin]
        simp only [List.map_cons, List.flatten_cons]
        rw [ih (start + maxc - ov) (by omega)]
        have h1 : start + maxc - start = maxc := by omega
        have h2 : start + maxc - ov + ov = start + maxc := by omega
        rw [h1, h2]
        rw [List.drop_take maxc ov (text.drop start), List.drop_drop ov start text]
        have h3 : text.drop (start + maxc) =
            List.drop (maxc - ov) (List.drop (start + ov) text) := by
          rw [List.drop_drop]
          congr 1
          omega
        rw [h3, List.take_append_drop]
      case neg =>
        have hemin : min (start + maxc) text.length = text.length := by omega
        rw [if_neg he, hemin]
        rw [chunkLoop_of_le text maxc ov f text.length (le_refl _)]
        simp only [List.map_cons, List.map_nil, List.flatten_cons, List.flatten_nil,
          List.append_nil]
        rw [List.drop_take (text.length - start) ov (text.drop start),
          List.drop_drop ov start text]
        apply List.take_of_length_le
        rw [List.length_drop]
        omega

/-- The last chunk produced, if any, is a suffix of the text ending exactly
at its end. -/
lemma chunkLoop_getLast_suffix (text : List Char) (maxc ov : Nat) (hov : ov < maxc) :
    ∀ fuel start, text.length ≤ start + fuel →
      ∀ last, (chunkLoop text maxc ov fuel start).getLast? = some last →
        List.IsSuffix last text := by
  intro fuel
  induction fuel with
  | zero =>
    intro start _ last hl
    rw [chunkLoop_of_le text maxc ov 0 start (by omega)] at hl
    simp at hl
  | succ f ih =>
    intro start hfuel last hl
    by_cases hs : start < text.length
    case neg =>
      rw [chunkLoop_of_le text maxc ov (f + 1) start (by omega)] at hl
      simp at hl
    case pos =>
      simp only [chunkLoop] at hl
      rw [if_pos hs] at hl
      by_cases he : min (start + maxc) text.length < text.length
      case pos =>
        have hemin : min (start + maxc) text.length = start + maxc := by omega
        rw [if_pos he, hemin] at hl
        have hrest : chunkLoop text maxc ov f (start + maxc - ov) ≠ [] :=
          chunkLoop_ne_nil text maxc ov f (start + maxc - ov) (by omega) (by omega)
        obtain ⟨r0, rs, hr⟩ := List.exists_cons_of_ne_nil hrest
        rw [hr, List.getLast?_cons_cons] at hl
        have hrec : (chunkLoop text maxc ov f (start + maxc - ov)).getLast? = some last := by
          rw [hr]
          exact hl
        exact ih (start + maxc - ov) (by omega) last hrec
      case neg =>
        have hemin : min (start + maxc) text.length = text.length := by omega
        rw [if_neg he, hemin] at hl
        rw [chunkLoop_of_le text maxc ov f text.length (le_refl _)] at hl
        rw [List.getLast?_singleton] at hl
        have hchunk : (text.drop start).take (text.length - start) = text.drop start := by
          apply List.take_of_length_le
          rw [List.length_drop]
        rw [hchunk] at hl
        rw [← Option.some_inj.mp hl]
        exact List.drop_suffix start text

/-- C2 (amended): for every non-empty text, concatenating the first chunk
with every following chunk deprived of its first 400 characters
reconstructs the text exactly, the chunk list is non-empty, its final
chunk is a suffix of the text ending exactly at the end, and a non-empty
text shorter than the window yields exactly one chunk equal to the whole
text.  (The empty text yields no chunk at all.) -/
theorem chunk_text_spec (text : List Char) (hne : text ≠ []) :
    reassemble 400 (chunk_text text 6000 400) = text ∧
    chunk_text text 6000 400 ≠ [] ∧
    (∀ last, (chunk_text text 6000 400).getLast? = some last →
       List.IsSuffix last text) ∧
    (text.length < 6000 → chunk_text text 6000 400 = [text]) := by
  have hn : 0 < text.length := List.length_pos.mpr hne
  refine ⟨?_, ?_, ?_, ?_⟩
  · unfold chunk_text
    simp only [chunkLoop]
    rw [if_pos hn]
    by_cases he : min (0 + 6000) text.length < text.length
    case pos =>
      have hemin : min (0 + 6000) text.length = 6000 := by omega
      rw [if_pos he, hemin]
      simp only [reassemble]
      rw [chunkLoop_flatten_drop text 6000 400 (by omega) text.length (6000 - 400) (by omega)]
      have h1 : 6000 - 400 + 400 = 6000 := by omega
      rw [h1]
      simp only [Nat.sub_zero, List.drop_zero]
      exact List.take_append_drop 6000 text
    case neg =>
      have hemin : min (0 + 6000) text.length = text.length := by omega
      rw [if_neg he, hemin]
      rw [chunkLoop_of_le text 6000 400 text.length text.length (le_refl _)]
      simp only [reassemble, List.map_nil, List.flatten_nil, List.append_nil]
      simp [List.take_of_length_le]
  · exact chunkLoop_ne_nil text 6000 400 (text.length + 1) 0 hn (by omega)
  · intro last hl
    exact chunkLoop_getLast_suffix text 6000 400 (by omega) (text.length + 1) 0
      (by omega) last hl
  · intro hlen
    unfold chunk_text
    simp only [chunkLoop]
    rw [if_pos hn]
    have he : ¬ (min (0 + 6000) text.length < text.length) := by omega
    have hemin : min (0 + 6000) text.length = text.length := by omega
    rw [if_neg he, hemin]
    rw [chunkLoop_of_le text 6000 400 text.length text.length (le_refl _)]
    simp [List.take_of_length_le]

/-- Counterexample for C2 as stated: the empty text is shorter than the
window yet yields no chunk, not exactly one chunk equal to the whole
text. -/
theorem chunk_text_spec_counterexample :
    chunk_text ([] : List Char) 6000 400 = [] ∧
    chunk_text ([] : List Char) 6000 400 ≠ [([] : List Char)] := by
  decide

/-- Witness for the amended C2 at a concrete two-character text. -/
theorem chunk_text_spec_witness :
    reassemble 400 (chunk_text [Char.ofNat 97, Char.ofNat 98] 6000 400) =
      [Char.ofNat 97, Char.ofNat 98] ∧
    chunk_text [Char.ofNat 97, Char.ofNat 98] 6000 400 ≠ [] ∧
    List.IsSuffix [Char.ofNat 97, Char.ofNat 98] [Char.ofNat 97, Char.ofNat 98] ∧
    chunk_text [Char.ofNat 97, Char.ofNat 98] 6000 400 =
      [[Char.ofNat 97, Char.ofNat 98]] := by
  have h := chunk_text_spec [Char.ofNat 97, Char.ofNat 98] (by decide)
  exact ⟨h.1, h.2.1, h.2.2.1 [Char.ofNat 97, Char.ofNat 98] (by decide),
    h.2.2.2 (by decide)⟩
